import Mathlib

/-!
Verification of the UPI fraud-detection decision/orchestration core.

Shallow embedding of `src/models/decision_engine.py` and
`src/models/fraud_pipeline.py` (with the threshold/risk-band constants of
`src/config/config.py`).  Python floats are modelled as rationals (ℚ);
Python `round` ties are modelled with Lean's `round` (round-half-up) —
no property below depends on tie behaviour.  Wall-clock timestamps and
log output are omitted: they do not influence any decision value.
-/

namespace FraudDetection

/-- The three decision outcomes of the engine (`'ALLOW' | 'VERIFY' | 'BLOCK'`). -/
inductive Action
| ALLOW
| VERIFY
| BLOCK
deriving DecidableEq

/-- Risk bands (`'LOW' | 'MEDIUM' | 'HIGH'`). -/
inductive Risk
| LOW
| MEDIUM
| HIGH
deriving DecidableEq

/-- A Python scalar as seen by `isinstance(x, (int, float))`: either a number
(modelled as ℚ) or some non-numeric value. -/
inductive PyVal
| num (q : ℚ)
| other
deriving DecidableEq

/-- `FRAUD_THRESHOLDS` dict of `config/config.py`: keys `allow`, `verify`, `block`. -/
structure Thresholds where
  allow : ℚ
  verify : ℚ
  block : ℚ
deriving DecidableEq

/-- Default thresholds: `{'allow': 0.4, 'verify': 0.7, 'block': 0.7}`. -/
def FRAUD_THRESHOLDS : Thresholds := ⟨2/5, 7/10, 7/10⟩

/-- `RISK_LEVELS` of `config/config.py` as the ordered association list the
Python dict iterates over (insertion order): `(level, min, max)`. -/
def RISK_LEVELS : List (Risk × ℚ × ℚ) :=
  [(Risk.LOW, 0, 2/5), (Risk.MEDIUM, 2/5, 7/10), (Risk.HIGH, 7/10, 1)]

/-- `FraudDecisionEngine._get_base_action`. -/
def get_base_action (th : Thresholds) (s : ℚ) : Action :=
  if s < th.allow then Action.ALLOW
  else if s < th.block then Action.VERIFY
  else Action.BLOCK

/-- The `for level, config in self.risk_levels.items()` loop of
`_get_risk_level`: first band whose `[min, max)` contains the score. -/
def get_risk_level_aux : List (Risk × ℚ × ℚ) → ℚ → Risk
  | [], _ => Risk.HIGH
  | (lvl, lo, hi) :: rest, s =>
      if lo ≤ s ∧ s < hi then lvl else get_risk_level_aux rest s

/-- `FraudDecisionEngine._get_risk_level` (the engine always uses `RISK_LEVELS`). -/
def get_risk_level (s : ℚ) : Risk := get_risk_level_aux RISK_LEVELS s

/-- A transaction record (`transaction_data` dict).  Each field the core reads
via `transaction_data.get(...)` or `transaction_data[...]` is an `Option`
(`none` = key absent); fields carry the types the code expects of them. -/
structure Txn where
  transaction_id : Option String := none
  sender_id : Option String := none
  receiver_id : Option String := none
  amount : Option ℚ := none
  transaction_time : Option ℚ := none
  device_id : Option String := none
  ip_address : Option String := none
  timestamp : Option String := none
  avg_amount_last_week : Option ℚ := none
  receiver_age_days : Option ℚ := none
  is_unusual_hour : Option ℚ := none
  preferred_device : Option String := none
  geo_distance_from_last_txn : Option ℚ := none
  transaction_frequency_last_24h : Option ℚ := none
  receiver_fraud_reports : Option ℚ := none
  user_type : Option String := none
deriving DecidableEq

/-- The reason strings `_apply_business_rules` appends, as symbolic tags
(the literal format strings are noted at each constructor). -/
inductive Reason
| fraudScore (s : ℚ)          -- "Fraud score: {s:.4f}"
| baseAction (a : Action)     -- "Base action: {a}"
| highAmount                  -- "High amount transaction (>5x average)"
| newReceiver                 -- "New receiver (<7 days) with high amount"
| unusualHour                 -- "Unusual transaction hour"
| newDevice                   -- "New/different device"
| distantLocation             -- "Distant location"
| highFrequency               -- "High transaction frequency"
| highRiskReceiver            -- "High-risk receiver"
| multipleIndicators (n : ℕ)  -- "Multiple risk indicators ({n})"
| tooManyIndicators (n : ℕ)   -- "Too many risk indicators ({n})"
| vipDowngrade                -- "VIP user - downgraded to verification"
| microNight                  -- "Micro transaction during night hours"
| finalAction (a : Action)    -- "Final action: {a}"
deriving DecidableEq

/-- `transaction_data.get('is_unusual_hour', 0) == 1`. -/
def unusualHourInd (t : Txn) : Bool := t.is_unusual_hour.getD 0 == 1

/-- `transaction_data.get('device_id') != transaction_data.get('preferred_device')`
(an absent key reads as `None`). -/
def deviceMismatch (t : Txn) : Bool := t.device_id != t.preferred_device

/-- `transaction_data.get('geo_distance_from_last_txn', 0) > 100`. -/
def distantLocationInd (t : Txn) : Bool :=
  decide (t.geo_distance_from_last_txn.getD 0 > 100)

/-- `transaction_data.get('transaction_frequency_last_24h', 0) > 10`. -/
def highFrequencyInd (t : Txn) : Bool :=
  decide (t.transaction_frequency_last_24h.getD 0 > 10)

/-- `transaction_data.get('receiver_fraud_reports', 0) > 3`. -/
def highRiskReceiverInd (t : Txn) : Bool :=
  decide (t.receiver_fraud_reports.getD 0 > 3)

/-- The `risk_indicators` tally of Business Rule 3 (five boolean signals). -/
def countRiskIndicators (t : Txn) : ℕ :=
  (if unusualHourInd t then 1 else 0) +
  (if deviceMismatch t then 1 else 0) +
  (if distantLocationInd t then 1 else 0) +
  (if highFrequencyInd t then 1 else 0) +
  (if highRiskReceiverInd t then 1 else 0)

/-- The per-indicator reason strings, appended while tallying. -/
def indicatorReasons (t : Txn) : List Reason :=
  (if unusualHourInd t then [Reason.unusualHour] else []) ++
  (if deviceMismatch t then [Reason.newDevice] else []) ++
  (if distantLocationInd t then [Reason.distantLocation] else []) ++
  (if highFrequencyInd t then [Reason.highFrequency] else []) ++
  (if highRiskReceiverInd t then [Reason.highRiskReceiver] else [])

/-- Business Rule 1: `amount > avg_amount * 5 and final_action == 'ALLOW'`. -/
def rule1 (t : Txn) (a : Action) : Action × List Reason :=
  if t.amount.getD 0 > t.avg_amount_last_week.getD 0 * 5 ∧ a = Action.ALLOW
  then (Action.VERIFY, [Reason.highAmount]) else (a, [])

/-- Business Rule 2: `receiver_age < 7 and amount > 10000 and final_action == 'ALLOW'`. -/
def rule2 (t : Txn) (a : Action) : Action × List Reason :=
  if t.receiver_age_days.getD 365 < 7 ∧ t.amount.getD 0 > 10000 ∧ a = Action.ALLOW
  then (Action.VERIFY, [Reason.newReceiver]) else (a, [])

/-- Business Rule 3's escalation: `if risk_indicators >= 3 and final_action == 'ALLOW':
... elif risk_indicators >= 4 and final_action == 'VERIFY': ...` — note the `elif`. -/
def tallyRule (t : Txn) (a : Action) : Action × List Reason :=
  if countRiskIndicators t ≥ 3 ∧ a = Action.ALLOW then
    (Action.VERIFY, [Reason.multipleIndicators (countRiskIndicators t)])
  else if countRiskIndicators t ≥ 4 ∧ a = Action.VERIFY then
    (Action.BLOCK, [Reason.tooManyIndicators (countRiskIndicators t)])
  else (a, [])

/-- Business Rule 4: `user_type == 'vip' and final_action == 'BLOCK'` (default
user type `'regular'`). -/
def vipRule (t : Txn) (a : Action) : Action × List Reason :=
  if t.user_type.getD "regular" = "vip" ∧ a = Action.BLOCK
  then (Action.VERIFY, [Reason.vipDowngrade]) else (a, [])

/-- Business Rule 5: `amount < 50 and (transaction_hour <= 5 or transaction_hour >= 23)`
then `if final_action == 'ALLOW'` (default hour 12). -/
def microRule (t : Txn) (a : Action) : Action × List Reason :=
  if t.amount.getD 0 < 50 ∧
     (t.transaction_time.getD 12 ≤ 5 ∨ t.transaction_time.getD 12 ≥ 23) ∧
     a = Action.ALLOW
  then (Action.VERIFY, [Reason.microNight]) else (a, [])

/-- `FraudDecisionEngine._apply_business_rules`: with no context, the reasons
are just the score and the base action; otherwise the five rules run in the
fixed order 1, 2, 3 (tally), 4 (VIP), 5 (micro-night), each appending its
reason, ending with the final-action reason. -/
def apply_business_rules (base : Action) (s : ℚ) : Option Txn → Action × List Reason
  | none => (base, [Reason.fraudScore s, Reason.baseAction base])
  | some t =>
    let p1 := rule1 t base
    let p2 := rule2 t p1.1
    let p3 := tallyRule t p2.1
    let p4 := vipRule t p3.1
    let p5 := microRule t p4.1
    (p5.1, Reason.fraudScore s :: (p1.2 ++ p2.2 ++ indicatorReasons t ++ p3.2 ++
      p4.2 ++ p5.2 ++ [Reason.finalAction p5.1]))

/-- Python `round(q, 3)` (ties modelled half-up). -/
def round3 (q : ℚ) : ℚ := (round (q * 1000) : ℤ) / 1000

/-- Python `round(q, 4)` (ties modelled half-up). -/
def round4 (q : ℚ) : ℚ := (round (q * 10000) : ℤ) / 10000

/-- `min_distance` of `_calculate_confidence`: distance to the nearer of the
`allow` and `block` thresholds. -/
def minDist (th : Thresholds) (s : ℚ) : ℚ := min |s - th.allow| |s - th.block|

/-- `FraudDecisionEngine._calculate_confidence`:
`round(min(1.0, min_distance / 0.2), 3)`. -/
def calculate_confidence (th : Thresholds) (s : ℚ) : ℚ :=
  round3 (min 1 (minDist th s / (1/5)))

/-- The decision dict built by `make_decision` (wall-clock timestamp omitted). -/
structure DecisionRecord where
  fraud_score : ℚ
  risk_level : Risk
  action : Action
  reasoning : List Reason
  confidence : ℚ
deriving DecidableEq

/-- The two `ValueError`s `make_decision` can raise on its score argument. -/
inductive DecisionError
| notANumber   -- "Fraud score must be a number"
| outOfRange   -- "Fraud score must be between 0 and 1, got {score}"
deriving DecidableEq

/-- `FraudDecisionEngine.make_decision`. -/
def make_decision (th : Thresholds) (score : PyVal) (ctx : Option Txn) :
    Except DecisionError DecisionRecord :=
  match score with
  | PyVal.other => Except.error DecisionError.notANumber
  | PyVal.num s =>
    if s < 0 ∨ s > 1 then Except.error DecisionError.outOfRange
    else
      let base := get_base_action th s
      let risk := get_risk_level s
      let p := apply_business_rules base s ctx
      Except.ok ⟨round4 s, risk, p.1, p.2, calculate_confidence th s⟩

/-- Projection: the action of a successful decision. -/
def actionOf (e : Except DecisionError DecisionRecord) : Option Action :=
  match e with
  | Except.ok r => some r.action
  | Except.error _ => none

/-- Projection: the risk level of a successful decision. -/
def riskOf (e : Except DecisionError DecisionRecord) : Option Risk :=
  match e with
  | Except.ok r => some r.risk_level
  | Except.error _ => none

/-- `True` exactly on `Except.ok`. -/
def isOkD (e : Except DecisionError DecisionRecord) : Bool :=
  match e with
  | Except.ok _ => true
  | Except.error _ => false

/-- Projection: the error of a failed decision. -/
def errOf (e : Except DecisionError DecisionRecord) : Option DecisionError :=
  match e with
  | Except.ok _ => none
  | Except.error err => some err

/-- Severity order on actions (ALLOW < VERIFY < BLOCK), used to state that
the VIP rule is the only rule that may reduce severity. -/
def severity : Action → ℕ
  | Action.ALLOW => 0
  | Action.VERIFY => 1
  | Action.BLOCK => 2

/-- A context carrying exactly four risk indicators (unusual hour, device
mismatch, distant location, high frequency) and triggering no other rule. -/
def tallyCtx : Txn :=
  { amount := some 100, avg_amount_last_week := some 100,
    transaction_time := some 12, is_unusual_hour := some 1,
    device_id := some "device_a", preferred_device := some "device_b",
    geo_distance_from_last_txn := some 200,
    transaction_frequency_last_24h := some 20 }

/-- A VIP context used to instantiate the VIP-downgrade property. -/
def vipCtx : Txn :=
  { amount := some 100, avg_amount_last_week := some 100,
    transaction_time := some 12, user_type := some "vip" }

/-- A context that supplies `device_id` but omits `preferred_device`. -/
def deviceOnlyCtx : Txn := { device_id := some "device_1" }

/-- A context that omits both `device_id` and `preferred_device`. -/
def noDeviceCtx : Txn := { amount := some 100 }

/-- A threshold-update payload restricted to the keys the engine knows
(`allow`, `verify`, `block`); `none` = key not supplied. -/
structure ThresholdUpdate where
  allow : Option PyVal := none
  verify : Option PyVal := none
  block : Option PyVal := none
deriving DecidableEq

/-- The per-key check of `_validate_thresholds`: a supplied value must satisfy
`isinstance(value, (int, float)) and 0 <= value <= 1`. -/
def okVal : Option PyVal → Bool
  | none => true
  | some (PyVal.num q) => decide (0 ≤ q ∧ q ≤ 1)
  | some PyVal.other => false

/-- `test_thresholds = self.thresholds.copy(); test_thresholds.update(thresholds)`. -/
def applyUpdate (cur : Thresholds) (u : ThresholdUpdate) : Thresholds where
  allow := match u.allow with | some (PyVal.num q) => q | _ => cur.allow
  verify := match u.verify with | some (PyVal.num q) => q | _ => cur.verify
  block := match u.block with | some (PyVal.num q) => q | _ => cur.block

/-- `FraudDecisionEngine._validate_thresholds`: every supplied value is numeric
in [0,1] and the merged configuration keeps `allow < block`. -/
def validate_thresholds (cur : Thresholds) (u : ThresholdUpdate) : Bool :=
  okVal u.allow && okVal u.verify && okVal u.block &&
    decide ((applyUpdate cur u).allow < (applyUpdate cur u).block)

/-- `FraudDecisionEngine.update_thresholds`: returns the success flag and the
thresholds afterwards (`self.thresholds` is only written when validation holds). -/
def update_thresholds (cur : Thresholds) (u : ThresholdUpdate) : Bool × Thresholds :=
  if validate_thresholds cur u then (true, applyUpdate cur u) else (false, cur)

/-- The rejected update of the spec's concrete case: `{allow: 0.8, block: 0.3}`. -/
def badUpdate : ThresholdUpdate :=
  { allow := some (PyVal.num (4/5)), block := some (PyVal.num (3/10)) }

/-- A Python float as returned by the external Scorer: finite, NaN, or ±inf. -/
inductive PyFloat
| fin (q : ℚ)
| nan
| posInf
| negInf
deriving DecidableEq

/-- `max(0.0, min(1.0, float(fraud_score)))` with CPython comparison-chain
semantics: `min(1.0, x)` keeps `1.0` unless `x < 1.0` holds (so NaN gives 1.0
and −inf gives −inf), then `max(0.0, y)` keeps `0.0` unless `y > 0.0` holds
(so −inf gives 0.0).  The result is always a rational in [0,1]. -/
def clampScore : PyFloat → ℚ
  | PyFloat.fin q => if q < 1 then (if q > 0 then q else 0) else 1
  | PyFloat.nan => 1
  | PyFloat.posInf => 1
  | PyFloat.negInf => 0

/-- The failures the orchestrator's `try` block can catch (str(e) payloads
kept where the code builds one). -/
inductive PipeError
| missingFields (fields : List String)  -- "Missing required fields: {...}"
| badAmount                             -- "Amount must be a positive number"
| badTime                               -- "Transaction time must be between 0 and 23"
| prepFailed (msg : String)             -- exception inside the Preprocessor
| scoreFailed (msg : String)            -- exception inside the Scorer
| decisionFailed                        -- exception inside make_decision
deriving DecidableEq

/-- The `missing_fields` list of `_validate_transaction_data`, built in the
code's field order. -/
def requiredMissing (t : Txn) : List String :=
  (if t.sender_id.isNone then ["sender_id"] else []) ++
  (if t.receiver_id.isNone then ["receiver_id"] else []) ++
  (if t.amount.isNone then ["amount"] else []) ++
  (if t.transaction_time.isNone then ["transaction_time"] else []) ++
  (if t.device_id.isNone then ["device_id"] else []) ++
  (if t.ip_address.isNone then ["ip_address"] else [])

/-- `FraudDetectionPipeline._validate_transaction_data`. -/
def validate_transaction_data (t : Txn) : Except PipeError Unit :=
  if requiredMissing t ≠ [] then Except.error (PipeError.missingFields (requiredMissing t))
  else if ¬ t.amount.getD 0 > 0 then Except.error PipeError.badAmount
  else if ¬ (0 ≤ t.transaction_time.getD 0 ∧ t.transaction_time.getD 0 ≤ 23) then
    Except.error PipeError.badTime
  else Except.ok ()

/-- Status values of `FraudActionProcessor` responses and error responses. -/
inductive RespStatus
| success
| pending
| blocked
| error
deriving DecidableEq

/-- `ActionResponse` (fixed message templates; next-steps lists and the
timestamp-derived support reference are omitted as constants/IO). -/
structure ActionResponse where
  status : RespStatus
  action : Action
  message : String
deriving DecidableEq

/-- `FraudActionProcessor.process_action`: pure mapping on the decision's
action (the `unknown` branch is unreachable over the closed `Action` type). -/
def process_action (d : DecisionRecord) : ActionResponse :=
  match d.action with
  | Action.ALLOW =>
      ⟨RespStatus.success, Action.ALLOW, "Transaction approved successfully"⟩
  | Action.VERIFY =>
      ⟨RespStatus.pending, Action.VERIFY, "Additional verification required"⟩
  | Action.BLOCK =>
      ⟨RespStatus.blocked, Action.BLOCK, "Transaction blocked due to security concerns"⟩

/-- The result dict of `predict_fraud`: success results carry the decision and
no error; error results carry the error and no decision. -/
structure PipelineResult where
  transaction_id : String
  fraud_detection : Option DecisionRecord
  error : Option PipeError
  action_response : ActionResponse
deriving DecidableEq

/-- `FraudDetectionPipeline._create_error_response`: fail-safe BLOCK. -/
def create_error_response (e : PipeError) (t : Txn) : PipelineResult :=
  ⟨t.transaction_id.getD "unknown", none, some e,
   ⟨RespStatus.error, Action.BLOCK,
    "Unable to process transaction due to technical error"⟩⟩

/-- The Preprocessor's output feature vector (opaque to the core). -/
def FeatVec : Type := List ℚ

/-- The body of `predict_fraud`'s `try` block (steps 1–4): validation,
preprocessing, scoring, clamping, decision.  The Preprocessor and Scorer are
abstract parameters; their exceptions are `Except.error` values. -/
def predict_core (th : Thresholds) (prep : Txn → Except PipeError FeatVec)
    (scorer : FeatVec → Except PipeError PyFloat) (t : Txn) :
    Except PipeError DecisionRecord := do
  let _ ← validate_transaction_data t
  let x ← prep t
  let raw ← scorer x
  match make_decision th (PyVal.num (clampScore raw)) (some t) with
  | Except.error _ => Except.error PipeError.decisionFailed
  | Except.ok rec => Except.ok rec

/-- `FraudDetectionPipeline.predict_fraud` on a loaded pipeline: any exception
in the `try` block becomes the fail-safe error response; otherwise the final
result combines the decision with the processed action. -/
def predict_fraud (th : Thresholds) (prep : Txn → Except PipeError FeatVec)
    (scorer : FeatVec → Except PipeError PyFloat) (t : Txn) : PipelineResult :=
  match predict_core th prep scorer t with
  | Except.error e => create_error_response e t
  | Except.ok rec =>
      ⟨t.transaction_id.getD "unknown", some rec, none, process_action rec⟩

/-- `f"BATCH_{i+1:04d}"`: zero-pad the decimal digits to width 4. -/
def pad4 (n : ℕ) : String :=
  String.mk (List.replicate (4 - (toString n).length) '0') ++ toString n

/-- The synthetic batch-scoped identifier. -/
def batchName (n : ℕ) : String := "BATCH_" ++ pad4 n

/-- The in-place mutation at the top of `batch_predict`'s loop body: an item
lacking `transaction_id` gets `f"BATCH_{i+1:04d}"`. -/
def assignId (i : ℕ) (t : Txn) : Txn :=
  if t.transaction_id.isSome then t
  else { t with transaction_id := some (batchName (i+1)) }

/-- The `for i, transaction in enumerate(transactions_list)` loop of
`batch_predict` (on a loaded pipeline `predict_fraud` itself never raises, so
the per-item `except` arm is unreachable in the typed model). -/
def batchAux (th : Thresholds) (prep : Txn → Except PipeError FeatVec)
    (scorer : FeatVec → Except PipeError PyFloat) : ℕ → List Txn → List PipelineResult
  | _, [] => []
  | i, t :: rest =>
      predict_fraud th prep scorer (assignId i t) ::
        batchAux th prep scorer (i+1) rest

/-- `FraudDetectionPipeline.batch_predict`. -/
def batch_predict (th : Thresholds) (prep : Txn → Except PipeError FeatVec)
    (scorer : FeatVec → Except PipeError PyFloat) (ts : List Txn) :
    List PipelineResult :=
  batchAux th prep scorer 0 ts

/-- A Preprocessor that always succeeds with an empty feature vector. -/
def prep0 : Txn → Except PipeError FeatVec := fun _ => Except.ok ([] : List ℚ)

/-- A Scorer returning −inf (a non-finite raw probability). -/
def scorerNegInf : FeatVec → Except PipeError PyFloat :=
  fun _ => Except.ok PyFloat.negInf

/-- A Scorer that raises. -/
def scorerFail : FeatVec → Except PipeError PyFloat :=
  fun _ => Except.error (PipeError.scoreFailed "model failure")

/-- A well-formed, benign transaction (all required fields, no risk signals). -/
def benignTxn : Txn :=
  { transaction_id := some "TXN_1", sender_id := some "user_123@upi",
    receiver_id := some "merchant_456@upi", amount := some 100,
    transaction_time := some 12, device_id := some "d1",
    ip_address := some "192.168.1.100", avg_amount_last_week := some 100,
    preferred_device := some "d1" }

/-- A well-formed transaction lacking only `transaction_id`. -/
def noIdTxn : Txn :=
  { sender_id := some "user_123@upi", receiver_id := some "merchant_456@upi",
    amount := some 500, transaction_time := some 10, device_id := some "d2",
    ip_address := some "10.0.0.1", timestamp := some "2024-01-01 00:00:00",
    avg_amount_last_week := some 500, preferred_device := some "d2" }

end FraudDetection

namespace FraudDetection

/-- C1: with the default thresholds, scores in [0, 0.4) are LOW/ALLOW,
scores in [0.4, 0.7) are MEDIUM/VERIFY, and scores in [0.7, 1.0] are
HIGH/BLOCK — the score 1.0 (in no band's `[min, max)`) falling back to HIGH. -/
theorem C1_bands (s : ℚ) :
    (0 ≤ s ∧ s < 2/5 →
      get_risk_level s = Risk.LOW ∧ get_base_action FRAUD_THRESHOLDS s = Action.ALLOW) ∧
    (2/5 ≤ s ∧ s < 7/10 →
      get_risk_level s = Risk.MEDIUM ∧ get_base_action FRAUD_THRESHOLDS s = Action.VERIFY) ∧
    (7/10 ≤ s ∧ s ≤ 1 →
      get_risk_level s = Risk.HIGH ∧ get_base_action FRAUD_THRESHOLDS s = Action.BLOCK) := by
  refine ⟨?_, ?_, ?_⟩ <;> rintro ⟨h1, h2⟩
  · constructor
    · simp [get_risk_level, get_risk_level_aux, RISK_LEVELS, h1, h2]
    · simp [get_base_action, FRAUD_THRESHOLDS, h2]
  · have hA : ¬ s < 2/5 := not_lt.mpr h1
    constructor
    · simp [get_risk_level, get_risk_level_aux, RISK_LEVELS, hA, h1, h2]
    · simp [get_base_action, FRAUD_THRESHOLDS, hA, h2]
  · have hA : ¬ s < 2/5 := by push_neg; linarith
    have hB : ¬ s < 7/10 := not_lt.mpr h1
    constructor
    · simp [get_risk_level, get_risk_level_aux, RISK_LEVELS, hA, hB]
    · simp [get_base_action, FRAUD_THRESHOLDS, hA, hB]

/-- Witness for C1 at the concrete scores 0.2, 0.5 and 1.0. -/
theorem C1_bands_witness :
    (get_risk_level (1/5) = Risk.LOW ∧
      get_base_action FRAUD_THRESHOLDS (1/5) = Action.ALLOW) ∧
    (get_risk_level (1/2) = Risk.MEDIUM ∧
      get_base_action FRAUD_THRESHOLDS (1/2) = Action.VERIFY) ∧
    (get_risk_level 1 = Risk.HIGH ∧
      get_base_action FRAUD_THRESHOLDS 1 = Action.BLOCK) :=
  ⟨(C1_bands (1/5)).1 (by norm_num),
   (C1_bands (1/2)).2.1 (by norm_num),
   (C1_bands 1).2.2 (by norm_num)⟩

/-- The VIP rule never outputs BLOCK when the context's user type is "vip". -/
lemma vipRule_ne_block (t : Txn) (hvip : t.user_type = some "vip") (a : Action) :
    (vipRule t a).1 ≠ Action.BLOCK := by
  cases a <;> simp [vipRule, hvip]

/-- The micro-night rule never turns a non-BLOCK action into BLOCK. -/
lemma microRule_preserves_ne_block (t : Txn) (a : Action) (h : a ≠ Action.BLOCK) :
    (microRule t a).1 ≠ Action.BLOCK := by
  unfold microRule
  split_ifs with hc
  · simp
  · exact h

/-- C3 counterexample: `tallyCtx` carries four risk indicators, score 0.1 gives
base action ALLOW, yet the tally rule leaves action VERIFY (not BLOCK, since
the second escalation is an `elif` of the first), and `make_decision` on this
context returns final action VERIFY — refuting the claim that a context
entering the rule with ALLOW and at least four indicators leaves it with BLOCK. -/
theorem C3_tally_counterexample :
    countRiskIndicators tallyCtx = 4 ∧
    get_base_action FRAUD_THRESHOLDS (1/10) = Action.ALLOW ∧
    (tallyRule tallyCtx Action.ALLOW).1 = Action.VERIFY ∧
    actionOf (make_decision FRAUD_THRESHOLDS (PyVal.num (1/10)) (some tallyCtx)) =
      some Action.VERIFY := by
  with_unfolding_all decide

/-- C3 (amended): the tally rule counts the five signals and applies its two
escalations as mutually exclusive branches (first match wins): count ≥ 3 with
action ALLOW yields VERIFY; count ≥ 4 with action VERIFY yields BLOCK; a
context entering with ALLOW and at least four indicators leaves with VERIFY,
never BLOCK. -/
theorem C3_tally_rule (t : Txn) :
    (countRiskIndicators t ≥ 3 → (tallyRule t Action.ALLOW).1 = Action.VERIFY) ∧
    (countRiskIndicators t ≥ 4 → (tallyRule t Action.VERIFY).1 = Action.BLOCK) ∧
    (countRiskIndicators t ≥ 4 →
      (tallyRule t Action.ALLOW).1 = Action.VERIFY ∧
      (tallyRule t Action.ALLOW).1 ≠ Action.BLOCK) := by
  refine ⟨?_, ?_, ?_⟩ <;> intro h
  · simp [tallyRule, h]
  · simp [tallyRule, h]
  · have h3 : countRiskIndicators t ≥ 3 := by omega
    simp [tallyRule, h3]

/-- Witness for C3 (amended) at the four-indicator context. -/
theorem C3_tally_rule_witness :
    (tallyRule tallyCtx Action.ALLOW).1 = Action.VERIFY ∧
    (tallyRule tallyCtx Action.VERIFY).1 = Action.BLOCK :=
  ⟨(C3_tally_rule tallyCtx).1 (by with_unfolding_all decide),
   (C3_tally_rule tallyCtx).2.1 (by with_unfolding_all decide)⟩

/-- C5: the VIP rule de-escalates BLOCK to VERIFY; every other business rule
is non-decreasing in severity (so the VIP rule is the only one that reduces
it); the only rule that runs after it never re-escalates to BLOCK; hence
`make_decision` on a context with user type "vip" never returns action BLOCK. -/
theorem C5_vip_no_block :
    (∀ t : Txn, t.user_type = some "vip" →
      (vipRule t Action.BLOCK).1 = Action.VERIFY) ∧
    (∀ (t : Txn) (a : Action), severity a ≤ severity (rule1 t a).1) ∧
    (∀ (t : Txn) (a : Action), severity a ≤ severity (rule2 t a).1) ∧
    (∀ (t : Txn) (a : Action), severity a ≤ severity (tallyRule t a).1) ∧
    (∀ (t : Txn) (a : Action), severity a ≤ severity (microRule t a).1) ∧
    (∀ (t : Txn) (a : Action), a ≠ Action.BLOCK →
      (microRule t a).1 ≠ Action.BLOCK) ∧
    (∀ (v : PyVal) (t : Txn), t.user_type = some "vip" →
      actionOf (make_decision FRAUD_THRESHOLDS v (some t)) ≠ some Action.BLOCK) := by
  refine ⟨?_, ?_, ?_, ?_, ?_, ?_, ?_⟩
  · intro t hvip
    simp [vipRule, hvip]
  · intro t a
    cases a <;> unfold rule1 <;> split_ifs <;> simp_all [severity]
  · intro t a
    cases a <;> unfold rule2 <;> split_ifs <;> simp_all [severity]
  · intro t a
    cases a <;> unfold tallyRule <;> split_ifs <;> simp_all [severity]
  · intro t a
    cases a <;> unfold microRule <;> split_ifs <;> simp_all [severity]
  · exact fun t a h => microRule_preserves_ne_block t a h
  · intro v t hvip
    cases v with
    | other => simp [make_decision, actionOf]
    | num s =>
      by_cases hs : s < 0 ∨ s > 1
      · simp [make_decision, hs, actionOf]
      · rw [make_decision, if_neg hs]
        simp only [actionOf, apply_business_rules]
        intro hEq
        exact microRule_preserves_ne_block t _
          (vipRule_ne_block t hvip _) (Option.some.inj hEq)

/-- Witness for C5 at a concrete VIP context and score 0.9. -/
theorem C5_vip_no_block_witness :
    actionOf (make_decision FRAUD_THRESHOLDS (PyVal.num (9/10)) (some vipCtx)) ≠
      some Action.BLOCK :=
  C5_vip_no_block.2.2.2.2.2.2 (PyVal.num (9/10)) vipCtx rfl

/-- C8: `make_decision` fails with the not-a-number error exactly on
non-numeric scores and with the out-of-range error exactly on numeric scores
outside [0,1]; it succeeds on every numeric score in [0,1]; score −0.1 fails
out-of-range, and score 0.2 with no context yields action ALLOW, risk LOW. -/
theorem C8_score_validation :
    (∀ s : ℚ, 0 ≤ s → s ≤ 1 → ∀ ctx,
      isOkD (make_decision FRAUD_THRESHOLDS (PyVal.num s) ctx) = true) ∧
    (∀ s : ℚ, s < 0 ∨ s > 1 → ∀ ctx,
      make_decision FRAUD_THRESHOLDS (PyVal.num s) ctx =
        Except.error DecisionError.outOfRange) ∧
    (∀ ctx, make_decision FRAUD_THRESHOLDS PyVal.other ctx =
      Except.error DecisionError.notANumber) ∧
    errOf (make_decision FRAUD_THRESHOLDS (PyVal.num (-1/10)) none) =
      some DecisionError.outOfRange ∧
    actionOf (make_decision FRAUD_THRESHOLDS (PyVal.num (1/5)) none) =
      some Action.ALLOW ∧
    riskOf (make_decision FRAUD_THRESHOLDS (PyVal.num (1/5)) none) =
      some Risk.LOW := by
  refine ⟨?_, ?_, ?_, by with_unfolding_all decide, by with_unfolding_all decide,
    by with_unfolding_all decide⟩
  · intro s h0 h1 ctx
    have hs : ¬ (s < 0 ∨ s > 1) := by
      rintro (h | h) <;> linarith
    rw [make_decision, if_neg hs]
    rfl
  · intro s hs ctx
    rw [make_decision, if_pos hs]
  · intro ctx
    rfl

/-- Witness for C8 at score 0.5 with the four-indicator context. -/
theorem C8_score_validation_witness :
    isOkD (make_decision FRAUD_THRESHOLDS (PyVal.num (1/2)) (some tallyCtx)) = true :=
  C8_score_validation.1 (1/2) (by norm_num) (by norm_num) (some tallyCtx)

/-- The high-amount rule never emits the new-device reason. -/
lemma newDevice_not_mem_rule1 (t : Txn) (a : Action) :
    Reason.newDevice ∉ (rule1 t a).2 := by
  unfold rule1; split_ifs <;> simp

/-- The new-receiver rule never emits the new-device reason. -/
lemma newDevice_not_mem_rule2 (t : Txn) (a : Action) :
    Reason.newDevice ∉ (rule2 t a).2 := by
  unfold rule2; split_ifs <;> simp

/-- The tally escalation itself never emits the new-device reason. -/
lemma newDevice_not_mem_tallyRule (t : Txn) (a : Action) :
    Reason.newDevice ∉ (tallyRule t a).2 := by
  unfold tallyRule; split_ifs <;> simp

/-- The VIP rule never emits the new-device reason. -/
lemma newDevice_not_mem_vipRule (t : Txn) (a : Action) :
    Reason.newDevice ∉ (vipRule t a).2 := by
  unfold vipRule; split_ifs <;> simp

/-- The micro-night rule never emits the new-device reason. -/
lemma newDevice_not_mem_microRule (t : Txn) (a : Action) :
    Reason.newDevice ∉ (microRule t a).2 := by
  unfold microRule; split_ifs <;> simp

/-- Without a device mismatch, the indicator reasons omit the new-device one. -/
lemma newDevice_not_mem_indicatorReasons (t : Txn) (h : deviceMismatch t = false) :
    Reason.newDevice ∉ indicatorReasons t := by
  unfold indicatorReasons
  rw [h]
  split_ifs <;> simp_all

/-- C10: the device-mismatch indicator fires exactly when `device_id` and
`preferred_device` read differently (absent keys reading as `None`): a context
supplying `device_id` but omitting `preferred_device` always counts one
indicator and gets the "New/different device" reason; a context omitting both
counts none and never gets that reason. -/
theorem C10_device_mismatch :
    (∀ (t : Txn) (s : String), t.device_id = some s → t.preferred_device = none →
      deviceMismatch t = true ∧ 1 ≤ countRiskIndicators t ∧
      ∀ (base : Action) (q : ℚ),
        Reason.newDevice ∈ (apply_business_rules base q (some t)).2) ∧
    (∀ t : Txn, t.device_id = none → t.preferred_device = none →
      deviceMismatch t = false ∧
      ∀ (base : Action) (q : ℚ),
        Reason.newDevice ∉ (apply_business_rules base q (some t)).2) := by
  constructor
  · intro t s h1 h2
    have hdm : deviceMismatch t = true := by simp [deviceMismatch, h1, h2]
    refine ⟨hdm, ?_, ?_⟩
    · simp only [countRiskIndicators, hdm, eq_self_iff_true, if_true]
      split_ifs <;> omega
    · intro base q
      simp [apply_business_rules, indicatorReasons, hdm]
  · intro t h1 h2
    have hdm : deviceMismatch t = false := by simp [deviceMismatch, h1, h2]
    refine ⟨hdm, ?_⟩
    intro base q
    simp [apply_business_rules, newDevice_not_mem_rule1, newDevice_not_mem_rule2,
      newDevice_not_mem_tallyRule, newDevice_not_mem_vipRule,
      newDevice_not_mem_microRule, newDevice_not_mem_indicatorReasons t hdm]

/-- Rounding to three decimals is monotone. -/
lemma round3_mono {a b : ℚ} (h : a ≤ b) : round3 a ≤ round3 b := by
  unfold round3
  have hr : round (a * 1000) ≤ round (b * 1000) := by
    rw [round_eq, round_eq]
    exact Int.floor_le_floor (by linarith)
  have hc : ((round (a * 1000) : ℤ) : ℚ) ≤ ((round (b * 1000) : ℤ) : ℚ) := by
    exact_mod_cast hr
  linarith

/-- The distance to the nearer threshold is nonnegative. -/
lemma minDist_nonneg (th : Thresholds) (s : ℚ) : 0 ≤ minDist th s :=
  le_min (abs_nonneg _) (abs_nonneg _)

/-- C7: the confidence of `make_decision` equals
`round3 (clamp (minDist / 0.2) 0 1)` (the lower clamp being vacuous as the
distance is nonnegative), is non-decreasing in the distance to the nearer
threshold, and equals 1 exactly once that distance reaches 0.2. -/
theorem C7_confidence :
    (∀ s : ℚ, calculate_confidence FRAUD_THRESHOLDS s =
      round3 (max 0 (min 1 (minDist FRAUD_THRESHOLDS s / (1/5))))) ∧
    (∀ s1 s2 : ℚ, minDist FRAUD_THRESHOLDS s1 ≤ minDist FRAUD_THRESHOLDS s2 →
      calculate_confidence FRAUD_THRESHOLDS s1 ≤ calculate_confidence FRAUD_THRESHOLDS s2) ∧
    (∀ s : ℚ, 1/5 ≤ minDist FRAUD_THRESHOLDS s →
      calculate_confidence FRAUD_THRESHOLDS s = 1) := by
  have h15 : (0:ℚ) < 1/5 := by norm_num
  have hone : round3 1 = 1 := by with_unfolding_all decide
  refine ⟨?_, ?_, ?_⟩
  · intro s
    unfold calculate_confidence
    have hx : 0 ≤ minDist FRAUD_THRESHOLDS s / (1/5) :=
      div_nonneg (minDist_nonneg _ _) (le_of_lt h15)
    rw [max_eq_right (le_min zero_le_one hx)]
  · intro s1 s2 h
    unfold calculate_confidence
    exact round3_mono (min_le_min le_rfl ((div_le_div_iff_of_pos_right h15).mpr h))
  · intro s h
    unfold calculate_confidence
    have h1 : (1:ℚ) ≤ minDist FRAUD_THRESHOLDS s / (1/5) := by
      rw [le_div_iff₀ h15]
      linarith
    rw [min_eq_left h1]
    exact hone

/-- Witness for C7: at score 1 the distance to the nearer threshold is 0.3,
so the confidence saturates at 1. -/
theorem C7_confidence_witness :
    calculate_confidence FRAUD_THRESHOLDS 1 = 1 :=
  C7_confidence.2.2 1 (by with_unfolding_all decide)

/-- C4: `update_thresholds` is all-or-nothing — on rejection it returns
failure and leaves the thresholds untouched; on success it returns success
with the merged configuration (every supplied key applied); it rejects any
non-numeric or out-of-[0,1] value and any merge violating `allow < block`;
and the update `{allow: 0.8, block: 0.3}` is rejected with state unchanged. -/
theorem C4_update_thresholds :
    (∀ (cur : Thresholds) (u : ThresholdUpdate),
      (update_thresholds cur u).1 = false → (update_thresholds cur u).2 = cur) ∧
    (∀ (cur : Thresholds) (u : ThresholdUpdate),
      (update_thresholds cur u).1 = true →
        (update_thresholds cur u).2 = applyUpdate cur u) ∧
    (∀ (cur : Thresholds) (u : ThresholdUpdate) (q : ℚ),
      (update_thresholds cur u).1 = true → u.allow = some (PyVal.num q) →
        (update_thresholds cur u).2.allow = q) ∧
    (∀ (cur : Thresholds) (u : ThresholdUpdate) (q : ℚ),
      (update_thresholds cur u).1 = true → u.verify = some (PyVal.num q) →
        (update_thresholds cur u).2.verify = q) ∧
    (∀ (cur : Thresholds) (u : ThresholdUpdate) (q : ℚ),
      (update_thresholds cur u).1 = true → u.block = some (PyVal.num q) →
        (update_thresholds cur u).2.block = q) ∧
    (∀ (cur : Thresholds) (u : ThresholdUpdate),
      (okVal u.allow = false ∨ okVal u.verify = false ∨ okVal u.block = false ∨
        ¬ (applyUpdate cur u).allow < (applyUpdate cur u).block) →
      (update_thresholds cur u).1 = false) ∧
    update_thresholds FRAUD_THRESHOLDS badUpdate = (false, FRAUD_THRESHOLDS) := by
  have happly : ∀ (cur : Thresholds) (u : ThresholdUpdate),
      (update_thresholds cur u).1 = true →
      (update_thresholds cur u).2 = applyUpdate cur u := by
    intro cur u h
    unfold update_thresholds at *
    split_ifs at * <;> simp_all
  refine ⟨?_, happly, ?_, ?_, ?_, ?_, by with_unfolding_all decide⟩
  · intro cur u h
    unfold update_thresholds at *
    split_ifs at * <;> simp_all
  · intro cur u q h hk
    rw [happly cur u h]
    simp [applyUpdate, hk]
  · intro cur u q h hk
    rw [happly cur u h]
    simp [applyUpdate, hk]
  · intro cur u q h hk
    rw [happly cur u h]
    simp [applyUpdate, hk]
  · intro cur u h
    have hv : validate_thresholds cur u = false := by
      unfold validate_thresholds
      rcases h with h | h | h | h <;> simp [h]
    simp [update_thresholds, hv]

/-- Witness for C4: the concrete rejected update leaves state unchanged. -/
theorem C4_update_thresholds_witness :
    (update_thresholds FRAUD_THRESHOLDS badUpdate).2 = FRAUD_THRESHOLDS :=
  C4_update_thresholds.1 FRAUD_THRESHOLDS badUpdate (by with_unfolding_all decide)

/-- C2 (amended): `predict_fraud` is total (never propagates an exception) and
fail-safe — whenever any step of the `try` block fails, the result is exactly
the error response for that failure: status error, action BLOCK, carrying the
error.  (A non-finite score is *not* such a failure: see the counterexample.) -/
theorem C2_failsafe (th : Thresholds) (prep : Txn → Except PipeError FeatVec)
    (scorer : FeatVec → Except PipeError PyFloat) (t : Txn) :
    ((predict_fraud th prep scorer t).error.isSome = true →
      (predict_fraud th prep scorer t).action_response.action = Action.BLOCK ∧
      (predict_fraud th prep scorer t).action_response.status = RespStatus.error) ∧
    (∀ e : PipeError, predict_core th prep scorer t = Except.error e →
      predict_fraud th prep scorer t = create_error_response e t ∧
      (predict_fraud th prep scorer t).error = some e) := by
  constructor
  · intro h
    unfold predict_fraud at *
    cases hc : predict_core th prep scorer t with
    | error e => simp [hc, create_error_response]
    | ok rec => rw [hc] at h; simp at h
  · intro e hc
    unfold predict_fraud
    rw [hc]
    exact ⟨rfl, rfl⟩

/-- Witness for C2 (amended): a failing Scorer yields the fail-safe BLOCK. -/
theorem C2_failsafe_witness :
    (predict_fraud FRAUD_THRESHOLDS prep0 scorerFail benignTxn).action_response.action =
      Action.BLOCK ∧
    (predict_fraud FRAUD_THRESHOLDS prep0 scorerFail benignTxn).action_response.status =
      RespStatus.error :=
  (C2_failsafe FRAUD_THRESHOLDS prep0 scorerFail benignTxn).1
    (by with_unfolding_all decide)

/-- C2 counterexample: a Scorer returning −inf does not fail — the clamp maps
−inf to 0.0 (NaN and +inf to 1.0), and the pipeline returns a *successful*
result whose action is ALLOW, refuting "the returned result is an error
result whose action field is BLOCK" for non-finite scores. -/
theorem C2_nonfinite_counterexample :
    clampScore PyFloat.negInf = 0 ∧
    clampScore PyFloat.nan = 1 ∧
    clampScore PyFloat.posInf = 1 ∧
    (predict_fraud FRAUD_THRESHOLDS prep0 scorerNegInf benignTxn).error = none ∧
    (predict_fraud FRAUD_THRESHOLDS prep0 scorerNegInf benignTxn).action_response.action =
      Action.ALLOW := by
  with_unfolding_all decide

/-- Each batch slot holds `predict_fraud` of its own input item (with the
loop-index identifier backfill), independently of every other item. -/
lemma batchAux_getElem (th : Thresholds) (prep : Txn → Except PipeError FeatVec)
    (scorer : FeatVec → Except PipeError PyFloat) (i : ℕ) (ts : List Txn) (k : ℕ) :
    (batchAux th prep scorer i ts)[k]? =
      (ts[k]?).map (fun t => predict_fraud th prep scorer (assignId (i+k) t)) := by
  induction ts generalizing i k with
  | nil => simp [batchAux]
  | cons t rest ih =>
    cases k with
    | zero => simp [batchAux]
    | succ k =>
      have hidx : i + 1 + k = i + (k + 1) := by omega
      simp only [batchAux, List.getElem?_cons_succ, ih (i+1) k, hidx]

/-- `batchAux` preserves length. -/
lemma batchAux_length (th : Thresholds) (prep : Txn → Except PipeError FeatVec)
    (scorer : FeatVec → Except PipeError PyFloat) (i : ℕ) (ts : List Txn) :
    (batchAux th prep scorer i ts).length = ts.length := by
  induction ts generalizing i with
  | nil => rfl
  | cons t rest ih => simp [batchAux, ih]

/-- C6: `batch_predict` returns exactly as many results as inputs, in input
order, the k-th result being `predict_fraud` of the k-th item alone (with the
synthetic sequential identifier backfilled when the item has none); hence
changing one item never changes any other item's result. -/
theorem C6_batch :
    (∀ (th : Thresholds) (prep : Txn → Except PipeError FeatVec)
       (scorer : FeatVec → Except PipeError PyFloat) (ts : List Txn),
      (batch_predict th prep scorer ts).length = ts.length) ∧
    (∀ (th : Thresholds) (prep : Txn → Except PipeError FeatVec)
       (scorer : FeatVec → Except PipeError PyFloat) (ts : List Txn) (k : ℕ),
      (batch_predict th prep scorer ts)[k]? =
        (ts[k]?).map (fun t => predict_fraud th prep scorer (assignId k t))) ∧
    (∀ (i : ℕ) (t : Txn), t.transaction_id = none →
      (assignId i t).transaction_id = some (batchName (i+1))) ∧
    (∀ (i : ℕ) (t : Txn), t.transaction_id.isSome = true → assignId i t = t) ∧
    (∀ (th : Thresholds) (prep : Txn → Except PipeError FeatVec)
       (scorer : FeatVec → Except PipeError PyFloat) (ts1 ts2 : List Txn) (j : ℕ),
      (∀ k, k ≠ j → ts1[k]? = ts2[k]?) →
      ∀ k, k ≠ j →
        (batch_predict th prep scorer ts1)[k]? =
          (batch_predict th prep scorer ts2)[k]?) := by
  have hget : ∀ th prep scorer (ts : List Txn) (k : ℕ),
      (batch_predict th prep scorer ts)[k]? =
        (ts[k]?).map (fun t => predict_fraud th prep scorer (assignId k t)) := by
    intro th prep scorer ts k
    have h := batchAux_getElem th prep scorer 0 ts k
    simpa [batch_predict] using h
  refine ⟨?_, hget, ?_, ?_, ?_⟩
  · intro th prep scorer ts
    exact batchAux_length th prep scorer 0 ts
  · intro i t h
    simp [assignId, h]
  · intro i t h
    simp [assignId, h]
  · intro th prep scorer ts1 ts2 j hsame k hk
    rw [hget, hget, hsame k hk]

/-- Witness for C6: an id-less item gets "BATCH_0001" in slot 0; an item with
an id keeps it. -/
theorem C6_batch_witness :
    (assignId 0 noIdTxn).transaction_id = some "BATCH_0001" ∧
    assignId 0 benignTxn = benignTxn := by
  constructor
  · have h := C6_batch.2.2.1 0 noIdTxn rfl
    rw [h]
    with_unfolding_all decide
  · exact C6_batch.2.2.2.1 0 benignTxn rfl

/-- C9 (amended): the pipeline never touches any transaction field except that
`batch_predict` backfills a missing `transaction_id` with the synthetic batch
identifier (`predict_fraud` itself performs no write at all — in this
embedding it takes the transaction unchanged); every other field, the
timestamp included, is left exactly as the caller supplied it. -/
theorem C9_frame (i : ℕ) (t : Txn) :
    (assignId i t).sender_id = t.sender_id ∧
    (assignId i t).receiver_id = t.receiver_id ∧
    (assignId i t).amount = t.amount ∧
    (assignId i t).transaction_time = t.transaction_time ∧
    (assignId i t).device_id = t.device_id ∧
    (assignId i t).ip_address = t.ip_address ∧
    (assignId i t).timestamp = t.timestamp ∧
    (assignId i t).avg_amount_last_week = t.avg_amount_last_week ∧
    (assignId i t).receiver_age_days = t.receiver_age_days ∧
    (assignId i t).is_unusual_hour = t.is_unusual_hour ∧
    (assignId i t).preferred_device = t.preferred_device ∧
    (assignId i t).geo_distance_from_last_txn = t.geo_distance_from_last_txn ∧
    (assignId i t).transaction_frequency_last_24h = t.transaction_frequency_last_24h ∧
    (assignId i t).receiver_fraud_reports = t.receiver_fraud_reports ∧
    (assignId i t).user_type = t.user_type ∧
    (t.transaction_id.isSome = true → assignId i t = t) := by
  unfold assignId
  split_ifs <;> simp_all

/-- Witness for C9 (amended) at a transaction that already has an id. -/
theorem C9_frame_witness :
    (assignId 3 benignTxn).timestamp = benignTxn.timestamp ∧
    assignId 3 benignTxn = benignTxn :=
  ⟨(C9_frame 3 benignTxn).2.2.2.2.2.2.1, (C9_frame 3 benignTxn).2.2.2.2.2.2.2.2.2.2.2.2.2.2.2 rfl⟩

/-- C9 counterexample: `batch_predict` gives an id-less item a synthetic
`transaction_id` — a field that is not the timestamp — so the caller's record
is modified beyond the claimed timestamp-only exception (the timestamp itself
is untouched). -/
theorem C9_counterexample :
    noIdTxn.transaction_id = none ∧
    (assignId 0 noIdTxn).transaction_id = some "BATCH_0001" ∧
    (assignId 0 noIdTxn).timestamp = noIdTxn.timestamp ∧
    assignId 0 noIdTxn ≠ noIdTxn ∧
    batch_predict FRAUD_THRESHOLDS prep0 scorerNegInf [noIdTxn] =
      [predict_fraud FRAUD_THRESHOLDS prep0 scorerNegInf (assignId 0 noIdTxn)] := by
  with_unfolding_all decide

/-- Witness for C10 at concrete contexts with and without a device id. -/
theorem C10_device_mismatch_witness :
    (deviceMismatch deviceOnlyCtx = true ∧
      Reason.newDevice ∈
        (apply_business_rules Action.ALLOW 0 (some deviceOnlyCtx)).2) ∧
    (deviceMismatch noDeviceCtx = false ∧
      Reason.newDevice ∉
        (apply_business_rules Action.ALLOW 0 (some noDeviceCtx)).2) :=
  ⟨⟨((C10_device_mismatch.1 deviceOnlyCtx "device_1" rfl rfl)).1,
    ((C10_device_mismatch.1 deviceOnlyCtx "device_1" rfl rfl)).2.2 Action.ALLOW 0⟩,
   ⟨(C10_device_mismatch.2 noDeviceCtx rfl rfl).1,
    (C10_device_mismatch.2 noDeviceCtx rfl rfl).2 Action.ALLOW 0⟩⟩

end FraudDetection
